import Mathlib

/-!
Shallow embedding of the Bolt protocol codec core
(pkg/protocol/sofarpc/codec/boltprotocol.go) together with the pieces of
the surrounding sofarpc package that the file references (constants,
command structs, registry, frame codecs), which are modelled from the
design document where noted.
-/

set_option maxRecDepth 4000

namespace Bolt

/-! ### Wire constants

Modelled from the spec: the constants live in the sofarpc package, not in
this file.  The spec fixes V1=1, V2=2, the four fixed-header lengths
22/20/24/22, and success status 0.  The concrete byte values of the
command-type enumeration, of the HEARTBEAT command code and of the
HESSIAN_SERIALIZE codec identifier are not pinned by the spec; distinct
representative values are chosen. -/

/-- Modelled from the spec: wire-version discriminator for Bolt V1 (spec: V1=1). -/
def PROTOCOL_CODE_V1 : Nat := 1

/-- Modelled from the spec: wire-version discriminator for Bolt V2 (spec: V2=2). -/
def PROTOCOL_CODE_V2 : Nat := 2

/-- Modelled from the spec: V1 request fixed-header length (22 bytes). -/
def REQUEST_HEADER_LEN_V1 : Nat := 22

/-- Modelled from the spec: V1 response fixed-header length (20 bytes). -/
def RESPONSE_HEADER_LEN_V1 : Nat := 20

/-- Modelled from the spec: V2 request fixed-header length (24 bytes). -/
def REQUEST_HEADER_LEN_V2 : Nat := 24

/-- Modelled from the spec: V2 response fixed-header length (22 bytes). -/
def RESPONSE_HEADER_LEN_V2 : Nat := 22

/-- Modelled from the spec: commandType enumeration value RESPONSE. -/
def RESPONSE : Nat := 0

/-- Modelled from the spec: commandType enumeration value REQUEST. -/
def REQUEST : Nat := 1

/-- Modelled from the spec: commandType enumeration value REQUEST_ONEWAY. -/
def REQUEST_ONEWAY : Nat := 2

/-- Modelled from the spec: the fixed well-known HEARTBEAT command code. -/
def HEARTBEAT : Nat := 0

/-- Modelled from the spec: protocol-level success status (spec: 0 = success). -/
def RESPONSE_STATUS_SUCCESS : Nat := 0

/-- Modelled from the spec: the body-codec identifier the heartbeat
constructors hardcode (the Go source writes `sofarpc.HESSIAN_SERIALIZE`
with a todo to read the default codec from config). -/
def HESSIAN_SERIALIZE : Nat := 1

/-! ### Command model

Modelled from the spec: the `BoltRequestCommand` / `BoltResponseCommand`
structs live in the sofarpc package, not in this file.  Field shapes
follow the spec data model (request-only `timeout`, response-only
`responseStatus`, V2-only `protocolVersion` and `functionSwitch`) and the
field names used by the constructors in boltprotocol.go. -/

/-- Modelled from the spec: a Bolt V1 request command.  Carries a timeout
and no response status. -/
structure BoltRequestCommand where
  Protocol : Nat
  CmdType : Nat
  CmdCode : Nat
  Version : Nat
  ReqId : Nat
  CodecPro : Nat
  Timeout : Int
  ClassName : List Nat
  HeaderMap : List Nat
  Content : List Nat

/-- Modelled from the spec: a Bolt V1 response command.  Carries a
response status and no timeout. -/
structure BoltResponseCommand where
  Protocol : Nat
  CmdType : Nat
  CmdCode : Nat
  Version : Nat
  ReqId : Nat
  CodecPro : Nat
  ResponseStatus : Nat
  ClassName : List Nat
  HeaderMap : List Nat
  Content : List Nat

/-- Modelled from the spec: a Bolt V2 request command; V2 adds the
frame-layout version byte (ver1) and the function-switch byte. -/
structure BoltV2RequestCommand where
  Protocol : Nat
  Version1 : Nat
  CmdType : Nat
  CmdCode : Nat
  Version : Nat
  ReqId : Nat
  CodecPro : Nat
  SwitchCode : Nat
  Timeout : Int
  ClassName : List Nat
  HeaderMap : List Nat
  Content : List Nat

/-- Modelled from the spec: a Bolt V2 response command. -/
structure BoltV2ResponseCommand where
  Protocol : Nat
  Version1 : Nat
  CmdType : Nat
  CmdCode : Nat
  Version : Nat
  ReqId : Nat
  CodecPro : Nat
  SwitchCode : Nat
  ResponseStatus : Nat
  ClassName : List Nat
  HeaderMap : List Nat
  Content : List Nat

/-- A V1 command, request or response (the closed tagged-variant set the
spec design notes call for). -/
inductive Command where
  | req : BoltRequestCommand → Command
  | resp : BoltResponseCommand → Command

/-- A V2 command, request or response. -/
inductive CommandV2 where
  | req : BoltV2RequestCommand → CommandV2
  | resp : BoltV2ResponseCommand → CommandV2

/-- The response-status field a command carries, if any: request-shaped
commands have none. -/
def Command.responseStatusField : Command → Option Nat
  | .req _ => none
  | .resp c => some c.ResponseStatus

/-- The timeout field a command carries, if any: response-shaped commands
have none. -/
def Command.timeoutField : Command → Option Int
  | .req c => some c.Timeout
  | .resp _ => none

/-- The command-type byte of a V1 command. -/
def Command.cmdType : Command → Nat
  | .req c => c.CmdType
  | .resp c => c.CmdType

/-! ### Heartbeat constructors (boltprotocol.go lines 152-174) -/

/-- `NewBoltHeartbeat` from boltprotocol.go: the heartbeat request
constructor.  Fields not listed in the Go composite literal take the Go
zero value (empty spans). -/
def NewBoltHeartbeat (requestId : Nat) : BoltRequestCommand :=
  { Protocol := PROTOCOL_CODE_V1
    CmdType := REQUEST
    CmdCode := HEARTBEAT
    Version := 1
    ReqId := requestId
    CodecPro := HESSIAN_SERIALIZE
    Timeout := -1
    ClassName := []
    HeaderMap := []
    Content := [] }

/-- `NewBoltHeartbeatAck` from boltprotocol.go: the heartbeat ack
constructor.  Fields not listed in the Go composite literal take the Go
zero value (empty spans). -/
def NewBoltHeartbeatAck (requestId : Nat) : BoltResponseCommand :=
  { Protocol := PROTOCOL_CODE_V1
    CmdType := RESPONSE
    CmdCode := HEARTBEAT
    Version := 1
    ReqId := requestId
    CodecPro := HESSIAN_SERIALIZE
    ResponseStatus := RESPONSE_STATUS_SUCCESS
    ClassName := []
    HeaderMap := []
    Content := [] }

/-! ### Protocol descriptor (boltprotocol.go lines 65-150) -/

/-- The concrete frame-codec implementation a descriptor holds
(`&boltV1Codec{}` / `&boltV2Codec{}` in boltprotocol.go). -/
inductive CodecImpl where
  | boltV1Codec
  | boltV2Codec

/-- The concrete command-handler implementation a descriptor holds
(`handler.NewBoltCommandHandler()` / `handler.NewBoltCommandHandlerV2()`
in boltprotocol.go). -/
inductive HandlerImpl where
  | boltCommandHandler
  | boltCommandHandlerV2

/-- `BoltProtocol` from boltprotocol.go: the protocol descriptor struct. -/
structure BoltProtocol where
  protocolCode : Nat
  requestHeaderLen : Nat
  responseHeaderLen : Nat
  encoder : CodecImpl
  decoder : CodecImpl
  commandHandler : HandlerImpl

/-- `GetRequestHeaderLength` from boltprotocol.go. -/
def BoltProtocol.GetRequestHeaderLength (b : BoltProtocol) : Nat :=
  b.requestHeaderLen

/-- `GetResponseHeaderLength` from boltprotocol.go. -/
def BoltProtocol.GetResponseHeaderLength (b : BoltProtocol) : Nat :=
  b.responseHeaderLen

/-- `GetEncoder` from boltprotocol.go. -/
def BoltProtocol.GetEncoder (b : BoltProtocol) : CodecImpl :=
  b.encoder

/-- `GetDecoder` from boltprotocol.go. -/
def BoltProtocol.GetDecoder (b : BoltProtocol) : CodecImpl :=
  b.decoder

/-- `GetCommandHandler` from boltprotocol.go. -/
def BoltProtocol.GetCommandHandler (b : BoltProtocol) : HandlerImpl :=
  b.commandHandler

/-- `BoltV1` from boltprotocol.go: the V1 descriptor value. -/
def BoltV1 : BoltProtocol :=
  { protocolCode := PROTOCOL_CODE_V1
    requestHeaderLen := REQUEST_HEADER_LEN_V1
    responseHeaderLen := RESPONSE_HEADER_LEN_V1
    encoder := CodecImpl.boltV1Codec
    decoder := CodecImpl.boltV1Codec
    commandHandler := HandlerImpl.boltCommandHandler }

/-- `BoltV2` from boltprotocol.go: the V2 descriptor value. -/
def BoltV2 : BoltProtocol :=
  { protocolCode := PROTOCOL_CODE_V2
    requestHeaderLen := REQUEST_HEADER_LEN_V2
    responseHeaderLen := RESPONSE_HEADER_LEN_V2
    encoder := CodecImpl.boltV2Codec
    decoder := CodecImpl.boltV2Codec
    commandHandler := HandlerImpl.boltCommandHandlerV2 }

/-! ### Protocol registry

Modelled from the spec: `RegisterProtocol` and the registry map live in
the sofarpc package, not in this file.  Per the spec registry contract,
`register` fails with DuplicateProtocol on a rebinding attempt and
`lookup` fails with UnknownProtocol on a miss. -/

/-- Modelled from the spec: errors of the registry contract. -/
inductive RegistryError where
  | DuplicateProtocol
  | UnknownProtocol

/-- Modelled from the spec: the registry, a mapping from discriminator
byte to descriptor, represented as an association list. -/
def Registry := List (Nat × BoltProtocol)

/-- Modelled from the spec: `lookup(discriminator) -> descriptor`, failing
with UnknownProtocol when no descriptor is bound. -/
def lookupProtocol : Registry → Nat → Except RegistryError BoltProtocol
  | [], _ => .error .UnknownProtocol
  | (c, p) :: rest, code =>
      if c = code then .ok p else lookupProtocol rest code

/-- Modelled from the spec: `register(discriminator, descriptor)`, failing
with DuplicateProtocol if the discriminator is already bound. -/
def registerProtocol (reg : Registry) (code : Nat) (p : BoltProtocol) :
    Except RegistryError Registry :=
  match lookupProtocol reg code with
  | .ok _ => .error .DuplicateProtocol
  | .error _ => .ok ((code, p) :: reg)

/-- The registration calls issued by `init` in boltprotocol.go, in source
order: `RegisterProtocol(PROTOCOL_CODE_V1, BoltV1)` then
`RegisterProtocol(PROTOCOL_CODE_V2, BoltV2)`.  This file is the whole
codec core, and these are its only registration calls. -/
def initCalls : List (Nat × BoltProtocol) :=
  [(PROTOCOL_CODE_V1, BoltV1), (PROTOCOL_CODE_V2, BoltV2)]

/-- Running the `init` registrations, in order, on an empty registry. -/
def initRegistry : Except RegistryError Registry :=
  initCalls.foldlM (fun reg cp => registerProtocol reg cp.1 cp.2) []

end Bolt

namespace Bolt

/-! ### Byte-level helpers (big-endian, per the spec wire tables) -/

/-- Big-endian bytes of a 16-bit unsigned integer. -/
def putU16 (n : Nat) : List Nat :=
  [n / 256 % 256, n % 256]

/-- Big-endian bytes of a 32-bit unsigned integer. -/
def putU32 (n : Nat) : List Nat :=
  [n / 16777216 % 256, n / 65536 % 256, n / 256 % 256, n % 256]

/-- Recombine two big-endian bytes into a 16-bit unsigned integer. -/
def getU16 (b1 b0 : Nat) : Nat :=
  b1 * 256 + b0

/-- Recombine four big-endian bytes into a 32-bit unsigned integer. -/
def getU32 (b3 b2 b1 b0 : Nat) : Nat :=
  b3 * 16777216 + b2 * 65536 + b1 * 256 + b0

/-- Two's-complement wire image of a signed 32-bit integer. -/
def int32ToWire (t : Int) : Nat :=
  (t % 4294967296).toNat

/-- Signed 32-bit integer read back from its wire image. -/
def wireToInt32 (n : Nat) : Int :=
  if n < 2147483648 then (n : Int) else (n : Int) - 4294967296

/-! ### CRC32 (IEEE, bit-reflected), used by the V2 trailer

Modelled from the spec: the V2 codec lives in boltv2codec.go, not in this
file; the spec says the trailer holds a CRC32 of all preceding bytes of
the frame. -/

/-- One bit-step of the reflected CRC32 division (polynomial 0xEDB88320). -/
def crcBit (c : Nat) : Nat :=
  if c % 2 = 1 then (c >>> 1) ^^^ 0xEDB88320 else c >>> 1

/-- Fold one input byte into the CRC32 accumulator (eight bit-steps). -/
def crcUpdate (c b : Nat) : Nat :=
  crcBit (crcBit (crcBit (crcBit (crcBit (crcBit (crcBit (crcBit (c ^^^ b % 256))))))))

/-- CRC32 (IEEE) of a byte list. -/
def crc32 (bs : List Nat) : Nat :=
  (bs.foldl crcUpdate 0xFFFFFFFF) ^^^ 0xFFFFFFFF

theorem crcBit_lt {c : Nat} (h : c < 4294967296) : crcBit c < 4294967296 := by
  unfold crcBit
  have hs : c >>> 1 < 4294967296 := by
    rw [Nat.shiftRight_one]
    omega
  split
  · exact Nat.xor_lt_two_pow (n := 32) hs (by norm_num)
  · exact hs

theorem crcUpdate_lt {c : Nat} (b : Nat) (h : c < 4294967296) :
    crcUpdate c b < 4294967296 := by
  unfold crcUpdate
  have h0 : c ^^^ b % 256 < 4294967296 :=
    Nat.xor_lt_two_pow (n := 32) h
      (Nat.lt_of_lt_of_le (Nat.mod_lt b (by norm_num)) (by norm_num))
  exact crcBit_lt (crcBit_lt (crcBit_lt (crcBit_lt (crcBit_lt (crcBit_lt
    (crcBit_lt (crcBit_lt h0)))))))

theorem crc32_lt (bs : List Nat) : crc32 bs < 4294967296 := by
  unfold crc32
  have h : ∀ c : Nat, c < 4294967296 → bs.foldl crcUpdate c < 4294967296 := by
    induction bs with
    | nil => intro c hc; exact hc
    | cons b rest ih => intro c hc; exact ih _ (crcUpdate_lt b hc)
  exact Nat.xor_lt_two_pow (n := 32) (h _ (by norm_num)) (by norm_num)

/-! ### Decode result (spec section 4.3) -/

/-- Modelled from the spec: the outcome of one decode attempt. -/
inductive DecodeResult (α : Type) where
  | Incomplete : DecodeResult α
  | Malformed : DecodeResult α
  | Decoded : α → Nat → DecodeResult α

end Bolt

namespace Bolt

/-! ### V1 frame codec

Modelled from the spec: `boltV1Codec` lives in boltv1codec.go, not in this
file.  Layout follows the spec wire table (section 6) and the frame
diagrams reproduced in boltprotocol.go: request header 22 bytes, response
header 20 bytes, layout selected by the type byte at offset 1, big-endian
multi-byte integers, then className, header-map and content spans. -/

/-- Modelled from the spec: V1 request frame encoding. -/
def encodeV1Req (c : BoltRequestCommand) : List Nat :=
  [c.Protocol, c.CmdType] ++ putU16 c.CmdCode ++ [c.Version] ++ putU32 c.ReqId ++
    [c.CodecPro] ++ putU32 (int32ToWire c.Timeout) ++ putU16 c.ClassName.length ++
    putU16 c.HeaderMap.length ++ putU32 c.Content.length ++
    c.ClassName ++ c.HeaderMap ++ c.Content

/-- Modelled from the spec: V1 response frame encoding. -/
def encodeV1Resp (c : BoltResponseCommand) : List Nat :=
  [c.Protocol, c.CmdType] ++ putU16 c.CmdCode ++ [c.Version] ++ putU32 c.ReqId ++
    [c.CodecPro] ++ putU16 c.ResponseStatus ++ putU16 c.ClassName.length ++
    putU16 c.HeaderMap.length ++ putU32 c.Content.length ++
    c.ClassName ++ c.HeaderMap ++ c.Content

/-- Modelled from the spec: V1 frame encoding, dispatching on the command
shape. -/
def encodeV1 : Command → List Nat
  | .req c => encodeV1Req c
  | .resp c => encodeV1Resp c

/-- Modelled from the spec: V1 frame decoding.  Returns `Incomplete` while
the fixed header or the declared spans are not fully buffered, `Malformed`
on an unrecognized type byte, and otherwise the decoded command with the
number of bytes consumed. -/
def decodeV1 (buf : List Nat) : DecodeResult Command :=
  match buf with
  | _ :: ty :: _ =>
    if ty = RESPONSE then
      match buf with
      | p :: t :: cc1 :: cc0 :: v :: r3 :: r2 :: r1 :: r0 :: cd :: s1 :: s0 ::
          cl1 :: cl0 :: hl1 :: hl0 :: n3 :: n2 :: n1 :: n0 :: body =>
        let cl := getU16 cl1 cl0
        let hl := getU16 hl1 hl0
        let ctl := getU32 n3 n2 n1 n0
        if body.length < cl + hl + ctl then .Incomplete
        else
          .Decoded
            (.resp
              { Protocol := p, CmdType := t, CmdCode := getU16 cc1 cc0,
                Version := v, ReqId := getU32 r3 r2 r1 r0, CodecPro := cd,
                ResponseStatus := getU16 s1 s0,
                ClassName := body.take cl,
                HeaderMap := (body.drop cl).take hl,
                Content := ((body.drop cl).drop hl).take ctl })
            (RESPONSE_HEADER_LEN_V1 + cl + hl + ctl)
      | _ => .Incomplete
    else if ty = REQUEST ∨ ty = REQUEST_ONEWAY then
      match buf with
      | p :: t :: cc1 :: cc0 :: v :: r3 :: r2 :: r1 :: r0 :: cd :: t3 :: t2 ::
          t1 :: t0 :: cl1 :: cl0 :: hl1 :: hl0 :: n3 :: n2 :: n1 :: n0 :: body =>
        let cl := getU16 cl1 cl0
        let hl := getU16 hl1 hl0
        let ctl := getU32 n3 n2 n1 n0
        if body.length < cl + hl + ctl then .Incomplete
        else
          .Decoded
            (.req
              { Protocol := p, CmdType := t, CmdCode := getU16 cc1 cc0,
                Version := v, ReqId := getU32 r3 r2 r1 r0, CodecPro := cd,
                Timeout := wireToInt32 (getU32 t3 t2 t1 t0),
                ClassName := body.take cl,
                HeaderMap := (body.drop cl).take hl,
                Content := ((body.drop cl).drop hl).take ctl })
            (REQUEST_HEADER_LEN_V1 + cl + hl + ctl)
      | _ => .Incomplete
    else .Malformed
  | _ => .Incomplete

/-- Validity of a V1 request for the round-trip property: multi-byte
fields fit their wire widths and the type byte is request-shaped. -/
def ValidV1Req (c : BoltRequestCommand) : Prop :=
  (c.CmdType = REQUEST ∨ c.CmdType = REQUEST_ONEWAY) ∧
    c.CmdCode < 65536 ∧ c.ReqId < 4294967296 ∧
    -2147483648 ≤ c.Timeout ∧ c.Timeout < 2147483648 ∧
    c.ClassName.length < 65536 ∧ c.HeaderMap.length < 65536 ∧
    c.Content.length < 4294967296

/-- Validity of a V1 response for the round-trip property. -/
def ValidV1Resp (c : BoltResponseCommand) : Prop :=
  c.CmdType = RESPONSE ∧ c.CmdCode < 65536 ∧ c.ReqId < 4294967296 ∧
    c.ResponseStatus < 65536 ∧
    c.ClassName.length < 65536 ∧ c.HeaderMap.length < 65536 ∧
    c.Content.length < 4294967296

theorem int32_roundtrip (t : Int) (h1 : -2147483648 ≤ t) (h2 : t < 2147483648) :
    wireToInt32 (int32ToWire t) = t := by
  unfold wireToInt32 int32ToWire
  omega

theorem int32ToWire_lt (t : Int) : int32ToWire t < 4294967296 := by
  unfold int32ToWire
  omega

end Bolt

namespace Bolt

theorem decodeV1_encodeV1Req (c : BoltRequestCommand) (h : ValidV1Req c) :
    decodeV1 (encodeV1Req c) =
      .Decoded (.req c)
        (REQUEST_HEADER_LEN_V1 + c.ClassName.length + c.HeaderMap.length +
          c.Content.length) := by
  obtain ⟨p, ty, cc, v, rid, cd, tw, cn, hm, ct⟩ := c
  obtain ⟨hty, hcc, hrid, htw1, htw2, hcn, hhm, hct⟩ := h
  simp only at hty hcc hrid htw1 htw2 hcn hhm hct ⊢
  simp only [encodeV1Req, putU16, putU32, List.cons_append, List.nil_append,
    List.append_assoc]
  simp only [decodeV1]
  have hR : ¬ (ty = RESPONSE) := by
    rcases hty with h1 | h1 <;> subst h1 <;> simp [REQUEST, REQUEST_ONEWAY, RESPONSE]
  rw [if_neg hR, if_pos hty]
  have ecc : getU16 (cc / 256 % 256) (cc % 256) = cc := by
    unfold getU16; omega
  have erid : getU32 (rid / 16777216 % 256) (rid / 65536 % 256) (rid / 256 % 256)
      (rid % 256) = rid := by
    unfold getU32; omega
  have htwlt := int32ToWire_lt tw
  have etw : getU32 (int32ToWire tw / 16777216 % 256) (int32ToWire tw / 65536 % 256)
      (int32ToWire tw / 256 % 256) (int32ToWire tw % 256) = int32ToWire tw := by
    unfold getU32; omega
  have ecl : getU16 (cn.length / 256 % 256) (cn.length % 256) = cn.length := by
    unfold getU16; omega
  have ehl : getU16 (hm.length / 256 % 256) (hm.length % 256) = hm.length := by
    unfold getU16; omega
  have ectl : getU32 (ct.length / 16777216 % 256) (ct.length / 65536 % 256)
      (ct.length / 256 % 256) (ct.length % 256) = ct.length := by
    unfold getU32; omega
  simp only [ecc, erid, etw, ecl, ehl, ectl, int32_roundtrip tw htw1 htw2]
  have hlen : ¬ ((cn ++ (hm ++ ct)).length < cn.length + hm.length + ct.length) := by
    simp [List.length_append]
    omega
  rw [if_neg hlen]
  rw [List.take_left' rfl, List.drop_left' rfl, List.take_left' rfl,
    List.drop_left' rfl, List.take_length]

theorem decodeV1_encodeV1Resp (c : BoltResponseCommand) (h : ValidV1Resp c) :
    decodeV1 (encodeV1Resp c) =
      .Decoded (.resp c)
        (RESPONSE_HEADER_LEN_V1 + c.ClassName.length + c.HeaderMap.length +
          c.Content.length) := by
  obtain ⟨p, ty, cc, v, rid, cd, st, cn, hm, ct⟩ := c
  obtain ⟨hty, hcc, hrid, hst, hcn, hhm, hct⟩ := h
  simp only at hty hcc hrid hst hcn hhm hct ⊢
  subst hty
  simp only [encodeV1Resp, putU16, putU32, List.cons_append, List.nil_append,
    List.append_assoc]
  simp only [decodeV1]
  rw [if_pos trivial]
  have ecc : getU16 (cc / 256 % 256) (cc % 256) = cc := by
    unfold getU16; omega
  have erid : getU32 (rid / 16777216 % 256) (rid / 65536 % 256) (rid / 256 % 256)
      (rid % 256) = rid := by
    unfold getU32; omega
  have est : getU16 (st / 256 % 256) (st % 256) = st := by
    unfold getU16; omega
  have ecl : getU16 (cn.length / 256 % 256) (cn.length % 256) = cn.length := by
    unfold getU16; omega
  have ehl : getU16 (hm.length / 256 % 256) (hm.length % 256) = hm.length := by
    unfold getU16; omega
  have ectl : getU32 (ct.length / 16777216 % 256) (ct.length / 65536 % 256)
      (ct.length / 256 % 256) (ct.length % 256) = ct.length := by
    unfold getU32; omega
  simp only [ecc, erid, est, ecl, ehl, ectl]
  have hlen : ¬ ((cn ++ (hm ++ ct)).length < cn.length + hm.length + ct.length) := by
    simp [List.length_append]
    omega
  rw [if_neg hlen]
  rw [List.take_left' rfl, List.drop_left' rfl, List.take_left' rfl,
    List.drop_left' rfl, List.take_length]

end Bolt

namespace Bolt

/-! ### V2 frame codec

Modelled from the spec: `boltV2Codec` lives in boltv2codec.go, not in this
file.  Layout follows the spec wire table (section 6) and the frame
diagrams reproduced in boltprotocol.go: request header 24 bytes, response
header 22 bytes, layout selected by the type byte at offset 2, an extra
ver1 byte at offset 1 and a function-switch byte after codec; after the
variable spans, a 4-byte CRC32 trailer over all preceding bytes of the
frame is present iff ver1 > 1 and the CRC bit of the switch byte is set
(the spec leaves the bit position open; bit 0 is chosen), and a CRC
mismatch is the one Malformed case beyond length arithmetic. -/

/-- Modelled from the spec: does a V2 frame with this ver1 byte and this
function-switch byte carry the CRC32 trailer? -/
def hasCrcV2 (ver1 sw : Nat) : Prop :=
  1 < ver1 ∧ sw % 2 = 1

instance (ver1 sw : Nat) : Decidable (hasCrcV2 ver1 sw) := by
  unfold hasCrcV2
  infer_instance

/-- Modelled from the spec: V2 request frame encoding, without the
optional trailer. -/
def encodeV2ReqBase (c : BoltV2RequestCommand) : List Nat :=
  [c.Protocol, c.Version1, c.CmdType] ++ putU16 c.CmdCode ++ [c.Version] ++
    putU32 c.ReqId ++ [c.CodecPro, c.SwitchCode] ++
    putU32 (int32ToWire c.Timeout) ++ putU16 c.ClassName.length ++
    putU16 c.HeaderMap.length ++ putU32 c.Content.length ++
    c.ClassName ++ c.HeaderMap ++ c.Content

/-- Modelled from the spec: V2 request frame encoding; appends the CRC32
trailer exactly when the frame enables it. -/
def encodeV2Req (c : BoltV2RequestCommand) : List Nat :=
  if hasCrcV2 c.Version1 c.SwitchCode then
    encodeV2ReqBase c ++ putU32 (crc32 (encodeV2ReqBase c))
  else encodeV2ReqBase c

/-- Modelled from the spec: V2 response frame encoding, without the
optional trailer. -/
def encodeV2RespBase (c : BoltV2ResponseCommand) : List Nat :=
  [c.Protocol, c.Version1, c.CmdType] ++ putU16 c.CmdCode ++ [c.Version] ++
    putU32 c.ReqId ++ [c.CodecPro, c.SwitchCode] ++
    putU16 c.ResponseStatus ++ putU16 c.ClassName.length ++
    putU16 c.HeaderMap.length ++ putU32 c.Content.length ++
    c.ClassName ++ c.HeaderMap ++ c.Content

/-- Modelled from the spec: V2 response frame encoding; appends the CRC32
trailer exactly when the frame enables it. -/
def encodeV2Resp (c : BoltV2ResponseCommand) : List Nat :=
  if hasCrcV2 c.Version1 c.SwitchCode then
    encodeV2RespBase c ++ putU32 (crc32 (encodeV2RespBase c))
  else encodeV2RespBase c

/-- Modelled from the spec: V2 frame encoding, dispatching on the command
shape. -/
def encodeV2 : CommandV2 → List Nat
  | .req c => encodeV2Req c
  | .resp c => encodeV2Resp c

/-- Modelled from the spec: V2 frame decoding.  Returns `Incomplete`
while the fixed header, the declared spans, or a required CRC trailer are
not fully buffered, `Malformed` on an unrecognized type byte or a CRC
mismatch, and otherwise the decoded command with the bytes consumed. -/
def decodeV2 (buf : List Nat) : DecodeResult CommandV2 :=
  match buf with
  | _ :: _ :: ty :: _ =>
    if ty = RESPONSE then
      match buf with
      | p :: v1 :: t :: cc1 :: cc0 :: v :: r3 :: r2 :: r1 :: r0 :: cd :: sw ::
          s1 :: s0 :: cl1 :: cl0 :: hl1 :: hl0 :: n3 :: n2 :: n1 :: n0 :: body =>
        let cl := getU16 cl1 cl0
        let hl := getU16 hl1 hl0
        let ctl := getU32 n3 n2 n1 n0
        let varLen := cl + hl + ctl
        let spans := body.take varLen
        let cmd : CommandV2 := .resp
          { Protocol := p, Version1 := v1, CmdType := t,
            CmdCode := getU16 cc1 cc0, Version := v,
            ReqId := getU32 r3 r2 r1 r0, CodecPro := cd, SwitchCode := sw,
            ResponseStatus := getU16 s1 s0,
            ClassName := spans.take cl,
            HeaderMap := (spans.drop cl).take hl,
            Content := ((spans.drop cl).drop hl).take ctl }
        if hasCrcV2 v1 sw then
          if body.length < varLen + 4 then .Incomplete
          else
            let pre := p :: v1 :: t :: cc1 :: cc0 :: v :: r3 :: r2 :: r1 :: r0 ::
              cd :: sw :: s1 :: s0 :: cl1 :: cl0 :: hl1 :: hl0 :: n3 :: n2 ::
              n1 :: n0 :: spans
            let tr := body.drop varLen
            if getU32 (tr.getD 0 0) (tr.getD 1 0) (tr.getD 2 0) (tr.getD 3 0) =
                crc32 pre then
              .Decoded cmd (RESPONSE_HEADER_LEN_V2 + varLen + 4)
            else .Malformed
        else
          if body.length < varLen then .Incomplete
          else .Decoded cmd (RESPONSE_HEADER_LEN_V2 + varLen)
      | _ => .Incomplete
    else if ty = REQUEST ∨ ty = REQUEST_ONEWAY then
      match buf with
      | p :: v1 :: t :: cc1 :: cc0 :: v :: r3 :: r2 :: r1 :: r0 :: cd :: sw ::
          t3 :: t2 :: t1 :: t0 :: cl1 :: cl0 :: hl1 :: hl0 :: n3 :: n2 :: n1 ::
          n0 :: body =>
        let cl := getU16 cl1 cl0
        let hl := getU16 hl1 hl0
        let ctl := getU32 n3 n2 n1 n0
        let varLen := cl + hl + ctl
        let spans := body.take varLen
        let cmd : CommandV2 := .req
          { Protocol := p, Version1 := v1, CmdType := t,
            CmdCode := getU16 cc1 cc0, Version := v,
            ReqId := getU32 r3 r2 r1 r0, CodecPro := cd, SwitchCode := sw,
            Timeout := wireToInt32 (getU32 t3 t2 t1 t0),
            ClassName := spans.take cl,
            HeaderMap := (spans.drop cl).take hl,
            Content := ((spans.drop cl).drop hl).take ctl }
        if hasCrcV2 v1 sw then
          if body.length < varLen + 4 then .Incomplete
          else
            let pre := p :: v1 :: t :: cc1 :: cc0 :: v :: r3 :: r2 :: r1 :: r0 ::
              cd :: sw :: t3 :: t2 :: t1 :: t0 :: cl1 :: cl0 :: hl1 :: hl0 ::
              n3 :: n2 :: n1 :: n0 :: spans
            let tr := body.drop varLen
            if getU32 (tr.getD 0 0) (tr.getD 1 0) (tr.getD 2 0) (tr.getD 3 0) =
                crc32 pre then
              .Decoded cmd (REQUEST_HEADER_LEN_V2 + varLen + 4)
            else .Malformed
        else
          if body.length < varLen then .Incomplete
          else .Decoded cmd (REQUEST_HEADER_LEN_V2 + varLen)
      | _ => .Incomplete
    else .Malformed
  | _ => .Incomplete

/-- Validity of a V2 request for the round-trip property. -/
def ValidV2Req (c : BoltV2RequestCommand) : Prop :=
  (c.CmdType = REQUEST ∨ c.CmdType = REQUEST_ONEWAY) ∧
    c.CmdCode < 65536 ∧ c.ReqId < 4294967296 ∧
    -2147483648 ≤ c.Timeout ∧ c.Timeout < 2147483648 ∧
    c.ClassName.length < 65536 ∧ c.HeaderMap.length < 65536 ∧
    c.Content.length < 4294967296

/-- Validity of a V2 response for the round-trip property. -/
def ValidV2Resp (c : BoltV2ResponseCommand) : Prop :=
  c.CmdType = RESPONSE ∧ c.CmdCode < 65536 ∧ c.ReqId < 4294967296 ∧
    c.ResponseStatus < 65536 ∧
    c.ClassName.length < 65536 ∧ c.HeaderMap.length < 65536 ∧
    c.Content.length < 4294967296

end Bolt

namespace Bolt

theorem getU16_split {n : Nat} (h : n < 65536) :
    getU16 (n / 256 % 256) (n % 256) = n := by
  unfold getU16; omega

theorem getU32_split {n : Nat} (h : n < 4294967296) :
    getU32 (n / 16777216 % 256) (n / 65536 % 256) (n / 256 % 256) (n % 256) = n := by
  unfold getU32; omega

theorem decodeV2_encodeV2Req (c : BoltV2RequestCommand) (h : ValidV2Req c) :
    decodeV2 (encodeV2Req c) =
      .Decoded (.req c)
        (REQUEST_HEADER_LEN_V2 + c.ClassName.length + c.HeaderMap.length +
          c.Content.length +
          (if hasCrcV2 c.Version1 c.SwitchCode then 4 else 0)) := by
  obtain ⟨p, v1, ty, cc, v, rid, cd, sw, tw, cn, hm, ct⟩ := c
  obtain ⟨hty, hcc, hrid, htw1, htw2, hcn, hhm, hct⟩ := h
  simp only at hty hcc hrid htw1 htw2 hcn hhm hct ⊢
  have hR : ¬ (ty = RESPONSE) := by
    rcases hty with h1 | h1 <;> subst h1 <;> simp [REQUEST, REQUEST_ONEWAY, RESPONSE]
  have hlen : (cn ++ (hm ++ ct)).length = cn.length + hm.length + ct.length := by
    simp [List.length_append]
    omega
  by_cases hcrc : hasCrcV2 v1 sw
  · rw [encodeV2Req, if_pos hcrc]
    simp only [encodeV2ReqBase, putU16, putU32, List.cons_append, List.nil_append,
      List.append_assoc]
    simp only [decodeV2]
    rw [if_neg hR, if_pos hty]
    rw [getU16_split hcc, getU32_split hrid, getU16_split hcn, getU16_split hhm,
      getU32_split hct, getU32_split (int32ToWire_lt tw),
      int32_roundtrip tw htw1 htw2]
    simp only [if_pos hcrc]
    rw [show ∀ tr : List Nat, cn ++ (hm ++ (ct ++ tr)) = (cn ++ (hm ++ ct)) ++ tr
      from fun tr => by simp [List.append_assoc]]
    rw [List.take_left' hlen, List.drop_left' hlen]
    split
    · next hlt =>
        exfalso
        simp [List.length_append] at hlt
        omega
    · simp only [List.getD_cons_zero, List.getD_cons_succ, getU32_split, crc32_lt,
        eq_self_iff_true, if_true]
      rw [List.take_left' rfl, List.drop_left' rfl, List.take_left' rfl,
        List.drop_left' rfl, List.take_length]
      congr 1
      omega
  · rw [encodeV2Req, if_neg hcrc]
    simp only [encodeV2ReqBase, putU16, putU32, List.cons_append, List.nil_append,
      List.append_assoc]
    simp only [decodeV2]
    rw [if_neg hR, if_pos hty]
    rw [getU16_split hcc, getU32_split hrid, getU16_split hcn, getU16_split hhm,
      getU32_split hct, getU32_split (int32ToWire_lt tw),
      int32_roundtrip tw htw1 htw2]
    simp only [if_neg hcrc]
    rw [if_neg (by omega : ¬ ((cn ++ (hm ++ ct)).length <
      cn.length + hm.length + ct.length))]
    rw [List.take_of_length_le (le_of_eq hlen)]
    rw [List.take_left' rfl, List.drop_left' rfl, List.take_left' rfl,
      List.drop_left' rfl, List.take_length]
    congr 1
    omega

theorem decodeV2_encodeV2Resp (c : BoltV2ResponseCommand) (h : ValidV2Resp c) :
    decodeV2 (encodeV2Resp c) =
      .Decoded (.resp c)
        (RESPONSE_HEADER_LEN_V2 + c.ClassName.length + c.HeaderMap.length +
          c.Content.length +
          (if hasCrcV2 c.Version1 c.SwitchCode then 4 else 0)) := by
  obtain ⟨p, v1, ty, cc, v, rid, cd, sw, st, cn, hm, ct⟩ := c
  obtain ⟨hty, hcc, hrid, hst, hcn, hhm, hct⟩ := h
  simp only at hty hcc hrid hst hcn hhm hct ⊢
  subst hty
  have hlen : (cn ++ (hm ++ ct)).length = cn.length + hm.length + ct.length := by
    simp [List.length_append]
    omega
  by_cases hcrc : hasCrcV2 v1 sw
  · rw [encodeV2Resp, if_pos hcrc]
    simp only [encodeV2RespBase, putU16, putU32, List.cons_append, List.nil_append,
      List.append_assoc]
    simp only [decodeV2]
    rw [if_pos trivial]
    rw [getU16_split hcc, getU32_split hrid, getU16_split hcn, getU16_split hhm,
      getU32_split hct, getU16_split hst]
    simp only [if_pos hcrc]
    rw [show ∀ tr : List Nat, cn ++ (hm ++ (ct ++ tr)) = (cn ++ (hm ++ ct)) ++ tr
      from fun tr => by simp [List.append_assoc]]
    rw [List.take_left' hlen, List.drop_left' hlen]
    split
    · next hlt =>
        exfalso
        simp [List.length_append] at hlt
        omega
    · simp only [List.getD_cons_zero, List.getD_cons_succ, getU32_split, crc32_lt,
        eq_self_iff_true, if_true]
      rw [List.take_left' rfl, List.drop_left' rfl, List.take_left' rfl,
        List.drop_left' rfl, List.take_length]
      congr 1
      omega
  · rw [encodeV2Resp, if_neg hcrc]
    simp only [encodeV2RespBase, putU16, putU32, List.cons_append, List.nil_append,
      List.append_assoc]
    simp only [decodeV2]
    rw [if_pos trivial]
    rw [getU16_split hcc, getU32_split hrid, getU16_split hcn, getU16_split hhm,
      getU32_split hct, getU16_split hst]
    simp only [if_neg hcrc]
    rw [if_neg (by omega : ¬ ((cn ++ (hm ++ ct)).length <
      cn.length + hm.length + ct.length))]
    rw [List.take_of_length_le (le_of_eq hlen)]
    rw [List.take_left' rfl, List.drop_left' rfl, List.take_left' rfl,
      List.drop_left' rfl, List.take_length]
    congr 1
    omega

end Bolt

namespace Bolt

/-! ### Claim theorems -/

/-- Claim C1: for every requestId r, `NewBoltHeartbeat r` returns a request
command with protocolCode = V1, commandType = REQUEST, commandCode =
HEARTBEAT, version = 1, requestId = r, timeout = -1, and the default codec
type. -/
theorem claim_C1_heartbeat_request_fields (r : Nat) :
    (NewBoltHeartbeat r).Protocol = PROTOCOL_CODE_V1 ∧
    (NewBoltHeartbeat r).CmdType = REQUEST ∧
    (NewBoltHeartbeat r).CmdCode = HEARTBEAT ∧
    (NewBoltHeartbeat r).Version = 1 ∧
    (NewBoltHeartbeat r).ReqId = r ∧
    (NewBoltHeartbeat r).Timeout = -1 ∧
    (NewBoltHeartbeat r).CodecPro = HESSIAN_SERIALIZE :=
  ⟨rfl, rfl, rfl, rfl, rfl, rfl, rfl⟩

/-- Claim C2: for every requestId r, `NewBoltHeartbeatAck r` returns a
Response command whose requestId equals r and whose responseStatus equals
SUCCESS. -/
theorem claim_C2_heartbeat_ack_fields (r : Nat) :
    (NewBoltHeartbeatAck r).CmdType = RESPONSE ∧
    (NewBoltHeartbeatAck r).ReqId = r ∧
    (NewBoltHeartbeatAck r).ResponseStatus = RESPONSE_STATUS_SUCCESS :=
  ⟨rfl, rfl, rfl⟩

/-- Claim C3: the descriptor registered under discriminator byte 1 reports
request/response header lengths 22/20, and the one registered under byte 2
reports 24/22, via the two getter methods. -/
theorem claim_C3_registered_header_lengths :
    ((initRegistry.bind fun reg => lookupProtocol reg 1).map
        fun d => (d.GetRequestHeaderLength, d.GetResponseHeaderLength)) =
      .ok (22, 20) ∧
    ((initRegistry.bind fun reg => lookupProtocol reg 2).map
        fun d => (d.GetRequestHeaderLength, d.GetResponseHeaderLength)) =
      .ok (24, 22) :=
  ⟨rfl, rfl⟩

/-- Claim C5: the package init registers exactly two descriptors, BoltV1
under PROTOCOL_CODE_V1 and BoltV2 under PROTOCOL_CODE_V2, each exactly
once (the two discriminators are distinct and both registrations succeed
on a fresh registry); `initCalls` embeds the only registration calls in
this core. -/
theorem claim_C5_registration_exactly_once :
    initCalls = [(PROTOCOL_CODE_V1, BoltV1), (PROTOCOL_CODE_V2, BoltV2)] ∧
    initCalls.length = 2 ∧
    PROTOCOL_CODE_V1 ≠ PROTOCOL_CODE_V2 ∧
    (initCalls.map Prod.fst).count PROTOCOL_CODE_V1 = 1 ∧
    (initCalls.map Prod.fst).count PROTOCOL_CODE_V2 = 1 ∧
    initRegistry = .ok [(PROTOCOL_CODE_V2, BoltV2), (PROTOCOL_CODE_V1, BoltV1)] :=
  ⟨rfl, rfl, by decide, by decide, by decide, rfl⟩

/-- Claim C6, counterexample: the claim says no operation in this core
fixes a hardcoded body-serialization default, but the heartbeat
constructors set codecType to the hardcoded constant HESSIAN_SERIALIZE for
every requestId (shown here at requestIds 0 and 1), which no frame
declared. -/
theorem claim_C6_counterexample_hardcoded_codec :
    (NewBoltHeartbeat 0).CodecPro = HESSIAN_SERIALIZE ∧
    (NewBoltHeartbeatAck 0).CodecPro = HESSIAN_SERIALIZE ∧
    (NewBoltHeartbeat 0).CodecPro = (NewBoltHeartbeat 1).CodecPro :=
  ⟨rfl, rfl, rfl⟩

/-- Claim C6, amended: the heartbeat constructors do fix a hardcoded
body-serialization default: both set codecType to HESSIAN_SERIALIZE for
every requestId (the source marks this with a todo to read the default
codec from config). -/
theorem claim_C6_amended_constructors_hardcode_codec (r : Nat) :
    (NewBoltHeartbeat r).CodecPro = HESSIAN_SERIALIZE ∧
    (NewBoltHeartbeatAck r).CodecPro = HESSIAN_SERIALIZE :=
  ⟨rfl, rfl⟩

/-- Claim C7: the commands this core produces keep the shape invariant:
the heartbeat request has command type REQUEST, carries no responseStatus
field and carries timeout -1; the heartbeat ack has command type RESPONSE,
carries no timeout field and carries responseStatus SUCCESS. -/
theorem claim_C7_shape_invariant (r : Nat) :
    (∀ q : BoltRequestCommand, (Command.req q).responseStatusField = none) ∧
    (∀ s : BoltResponseCommand, (Command.resp s).timeoutField = none) ∧
    ((Command.req (NewBoltHeartbeat r)).cmdType = REQUEST ∧
      (Command.req (NewBoltHeartbeat r)).responseStatusField = none ∧
      (Command.req (NewBoltHeartbeat r)).timeoutField = some (-1)) ∧
    ((Command.resp (NewBoltHeartbeatAck r)).cmdType = RESPONSE ∧
      (Command.resp (NewBoltHeartbeatAck r)).timeoutField = none ∧
      (Command.resp (NewBoltHeartbeatAck r)).responseStatusField =
        some RESPONSE_STATUS_SUCCESS) :=
  ⟨fun _ => rfl, fun _ => rfl, ⟨rfl, rfl, rfl⟩, ⟨rfl, rfl, rfl⟩⟩

/-- Claim C9: a protocol descriptor is a pure value holder: each getter
returns exactly the component the descriptor was constructed with. -/
theorem claim_C9_descriptor_pure_value_holder (p rq rs : Nat)
    (e d : CodecImpl) (h : HandlerImpl) :
    (BoltProtocol.mk p rq rs e d h).GetRequestHeaderLength = rq ∧
    (BoltProtocol.mk p rq rs e d h).GetResponseHeaderLength = rs ∧
    (BoltProtocol.mk p rq rs e d h).GetEncoder = e ∧
    (BoltProtocol.mk p rq rs e d h).GetDecoder = d ∧
    (BoltProtocol.mk p rq rs e d h).GetCommandHandler = h :=
  ⟨rfl, rfl, rfl, rfl, rfl⟩

/-- Claim C10: any descriptor obtained by looking up a discriminator byte
in the registry built by init identifies itself with that same byte. -/
theorem claim_C10_lookup_self_identifying (code : Nat) (p : BoltProtocol)
    (reg : Registry) (hreg : initRegistry = .ok reg)
    (hp : lookupProtocol reg code = .ok p) :
    p.protocolCode = code := by
  have hval : initRegistry =
      .ok [(PROTOCOL_CODE_V2, BoltV2), (PROTOCOL_CODE_V1, BoltV1)] := rfl
  rw [hval] at hreg
  injection hreg with hreg
  subst hreg
  simp only [lookupProtocol] at hp
  split_ifs at hp with h1 h2
  · injection hp with hp
    subst hp
    exact h1
  · injection hp with hp
    subst hp
    exact h2

/-- Claim C10 witness: looking up PROTOCOL_CODE_V1 in the init registry
yields BoltV1, whose protocolCode is PROTOCOL_CODE_V1. -/
theorem claim_C10_lookup_self_identifying_witness :
    BoltV1.protocolCode = PROTOCOL_CODE_V1 :=
  claim_C10_lookup_self_identifying PROTOCOL_CODE_V1 BoltV1
    [(PROTOCOL_CODE_V2, BoltV2), (PROTOCOL_CODE_V1, BoltV1)] rfl rfl

end Bolt

namespace Bolt

theorem encodeV2ReqBase_length (c : BoltV2RequestCommand) :
    (encodeV2ReqBase c).length =
      REQUEST_HEADER_LEN_V2 + c.ClassName.length + c.HeaderMap.length +
        c.Content.length := by
  simp [encodeV2ReqBase, putU16, putU32, REQUEST_HEADER_LEN_V2,
    List.length_append]
  omega

theorem encodeV2RespBase_length (c : BoltV2ResponseCommand) :
    (encodeV2RespBase c).length =
      RESPONSE_HEADER_LEN_V2 + c.ClassName.length + c.HeaderMap.length +
        c.Content.length := by
  simp [encodeV2RespBase, putU16, putU32, RESPONSE_HEADER_LEN_V2,
    List.length_append]
  omega

/-- Claim C4: a V2 frame carries the 4-byte CRC32 trailer iff its ver1
byte exceeds 1 and the CRC bit of its function-switch byte is set; in
particular a frame with ver1 > 1 but the switch bit clear carries no
trailer. -/
theorem claim_C4_crc_trailer_iff (cq : BoltV2RequestCommand)
    (cs : BoltV2ResponseCommand) :
    ((encodeV2Req cq).length =
        REQUEST_HEADER_LEN_V2 + cq.ClassName.length + cq.HeaderMap.length +
          cq.Content.length + 4 ↔ 1 < cq.Version1 ∧ cq.SwitchCode % 2 = 1) ∧
    ((encodeV2Resp cs).length =
        RESPONSE_HEADER_LEN_V2 + cs.ClassName.length + cs.HeaderMap.length +
          cs.Content.length + 4 ↔ 1 < cs.Version1 ∧ cs.SwitchCode % 2 = 1) ∧
    (1 < cq.Version1 → cq.SwitchCode % 2 = 0 →
      (encodeV2Req cq).length =
        REQUEST_HEADER_LEN_V2 + cq.ClassName.length + cq.HeaderMap.length +
          cq.Content.length) := by
  have hq : ∀ h : hasCrcV2 cq.Version1 cq.SwitchCode,
      (encodeV2Req cq).length =
        REQUEST_HEADER_LEN_V2 + cq.ClassName.length + cq.HeaderMap.length +
          cq.Content.length + 4 := by
    intro h
    rw [encodeV2Req, if_pos h]
    simp [List.length_append, encodeV2ReqBase_length, putU32]
  have hqn : ∀ h : ¬ hasCrcV2 cq.Version1 cq.SwitchCode,
      (encodeV2Req cq).length =
        REQUEST_HEADER_LEN_V2 + cq.ClassName.length + cq.HeaderMap.length +
          cq.Content.length := by
    intro h
    rw [encodeV2Req, if_neg h]
    exact encodeV2ReqBase_length cq
  have hs : ∀ h : hasCrcV2 cs.Version1 cs.SwitchCode,
      (encodeV2Resp cs).length =
        RESPONSE_HEADER_LEN_V2 + cs.ClassName.length + cs.HeaderMap.length +
          cs.Content.length + 4 := by
    intro h
    rw [encodeV2Resp, if_pos h]
    simp [List.length_append, encodeV2RespBase_length, putU32]
  have hsn : ∀ h : ¬ hasCrcV2 cs.Version1 cs.SwitchCode,
      (encodeV2Resp cs).length =
        RESPONSE_HEADER_LEN_V2 + cs.ClassName.length + cs.HeaderMap.length +
          cs.Content.length := by
    intro h
    rw [encodeV2Resp, if_neg h]
    exact encodeV2RespBase_length cs
  refine ⟨?_, ?_, ?_⟩
  · constructor
    · intro hlen
      by_contra hnot
      rw [hqn (by rwa [hasCrcV2])] at hlen
      omega
    · intro h
      exact hq h
  · constructor
    · intro hlen
      by_contra hnot
      rw [hsn (by rwa [hasCrcV2])] at hlen
      omega
    · intro h
      exact hs h
  · intro h1 h2
    exact hqn (by rw [hasCrcV2]; omega)

end Bolt

namespace Bolt

/-- Claim C8: for every valid command of either wire version and either
direction, decoding the bytes produced by encoding it yields the same
command field-for-field (together with the exact number of bytes
consumed). -/
theorem claim_C8_decode_encode_roundtrip :
    (∀ c, ValidV1Req c → decodeV1 (encodeV1 (.req c)) =
      .Decoded (.req c)
        (REQUEST_HEADER_LEN_V1 + c.ClassName.length + c.HeaderMap.length +
          c.Content.length)) ∧
    (∀ c, ValidV1Resp c → decodeV1 (encodeV1 (.resp c)) =
      .Decoded (.resp c)
        (RESPONSE_HEADER_LEN_V1 + c.ClassName.length + c.HeaderMap.length +
          c.Content.length)) ∧
    (∀ c, ValidV2Req c → decodeV2 (encodeV2 (.req c)) =
      .Decoded (.req c)
        (REQUEST_HEADER_LEN_V2 + c.ClassName.length + c.HeaderMap.length +
          c.Content.length +
          (if hasCrcV2 c.Version1 c.SwitchCode then 4 else 0))) ∧
    (∀ c, ValidV2Resp c → decodeV2 (encodeV2 (.resp c)) =
      .Decoded (.resp c)
        (RESPONSE_HEADER_LEN_V2 + c.ClassName.length + c.HeaderMap.length +
          c.Content.length +
          (if hasCrcV2 c.Version1 c.SwitchCode then 4 else 0))) :=
  ⟨fun c h => decodeV1_encodeV1Req c h,
   fun c h => decodeV1_encodeV1Resp c h,
   fun c h => decodeV2_encodeV2Req c h,
   fun c h => decodeV2_encodeV2Resp c h⟩

/-- A concrete V2 heartbeat-style request frame that enables the CRC32
trailer (ver1 = 2, switch bit 0 set). -/
def exampleV2ReqCrc : BoltV2RequestCommand :=
  { Protocol := PROTOCOL_CODE_V2, Version1 := 2, CmdType := REQUEST,
    CmdCode := HEARTBEAT, Version := 1, ReqId := 7,
    CodecPro := HESSIAN_SERIALIZE, SwitchCode := 1, Timeout := -1,
    ClassName := [99], HeaderMap := [1, 2], Content := [5, 6, 7] }

/-- A concrete V2 response frame whose ver1 exceeds 1 but whose CRC
switch bit is clear. -/
def exampleV2RespClear : BoltV2ResponseCommand :=
  { Protocol := PROTOCOL_CODE_V2, Version1 := 2, CmdType := RESPONSE,
    CmdCode := HEARTBEAT, Version := 1, ReqId := 7,
    CodecPro := HESSIAN_SERIALIZE, SwitchCode := 0,
    ResponseStatus := RESPONSE_STATUS_SUCCESS,
    ClassName := [], HeaderMap := [4], Content := [8, 9] }

/-- Claim C8 witness: the round trip at concrete commands: the V1
heartbeat request and ack with requestId 7, a CRC-enabled V2 request, and
a CRC-disabled V2 response. -/
theorem claim_C8_decode_encode_roundtrip_witness :
    decodeV1 (encodeV1 (.req (NewBoltHeartbeat 7))) =
      .Decoded (.req (NewBoltHeartbeat 7)) 22 ∧
    decodeV1 (encodeV1 (.resp (NewBoltHeartbeatAck 7))) =
      .Decoded (.resp (NewBoltHeartbeatAck 7)) 20 ∧
    decodeV2 (encodeV2 (.req exampleV2ReqCrc)) =
      .Decoded (.req exampleV2ReqCrc) 34 ∧
    decodeV2 (encodeV2 (.resp exampleV2RespClear)) =
      .Decoded (.resp exampleV2RespClear) 25 :=
  ⟨claim_C8_decode_encode_roundtrip.1 (NewBoltHeartbeat 7)
      (by unfold ValidV1Req NewBoltHeartbeat; decide),
   claim_C8_decode_encode_roundtrip.2.1 (NewBoltHeartbeatAck 7)
      (by unfold ValidV1Resp NewBoltHeartbeatAck; decide),
   claim_C8_decode_encode_roundtrip.2.2.1 exampleV2ReqCrc
      (by unfold ValidV2Req exampleV2ReqCrc; decide),
   claim_C8_decode_encode_roundtrip.2.2.2 exampleV2RespClear
      (by unfold ValidV2Resp exampleV2RespClear; decide)⟩

/-- A concrete V2 request frame whose ver1 exceeds 1 but whose CRC switch
bit is clear. -/
def exampleV2ReqClear : BoltV2RequestCommand :=
  { Protocol := PROTOCOL_CODE_V2, Version1 := 2, CmdType := REQUEST,
    CmdCode := HEARTBEAT, Version := 1, ReqId := 7,
    CodecPro := HESSIAN_SERIALIZE, SwitchCode := 0, Timeout := -1,
    ClassName := [99], HeaderMap := [1, 2], Content := [5, 6, 7] }

/-- Claim C4 witness: at concrete frames, the CRC-enabled V2 request's
frame is exactly 4 bytes longer than header plus spans (24 + 6 + 4 = 34),
while the request with ver1 = 2 but switch bit clear has no trailer
(24 + 6 = 30). -/
theorem claim_C4_crc_trailer_iff_witness :
    (encodeV2Req exampleV2ReqCrc).length = 34 ∧
    1 < exampleV2ReqClear.Version1 ∧ exampleV2ReqClear.SwitchCode % 2 = 0 ∧
    (encodeV2Req exampleV2ReqClear).length = 30 :=
  ⟨(claim_C4_crc_trailer_iff exampleV2ReqCrc exampleV2RespClear).1.mpr
      (by unfold exampleV2ReqCrc; decide),
   by decide, by decide,
   (claim_C4_crc_trailer_iff exampleV2ReqClear exampleV2RespClear).2.2
      (by decide) (by decide)⟩

end Bolt
